import Mathlib

/-!
Verification of the paperless_ocr batch/HTTP OCR integration.

The source (src/update_ocr.py, src/function_app.py) is a sequential
orchestration of remote calls: list documents lacking an "Azure OCR
Completed" custom-field flag, download each, run Azure OCR, PATCH the
recognized text and the flag back, and clean up the scratch file.

We shallowly embed the pure decision logic of each function.  Remote
responses (HTTP statuses, JSON bodies, OCR results, exceptions raised by
the SDK calls) are supplied by explicit environment records, so each
Python function becomes a pure Lean function from its environment to its
return value together with the trace of externally visible calls it makes.
-/

namespace PaperlessOcr

/-- A JSON scalar value, as far as this program inspects one.  Python's
truthiness on these values (used by `if not document_id`, `if not content`)
is `jfalsy` below. -/
inductive JValue where
  | null
  | bool (b : Bool)
  | num (n : Int)
  | str (s : String)
  deriving DecidableEq, Repr

/-- Python truthiness test `not v` for the JSON scalars above:
None, False, 0 and "" are falsy. -/
def jfalsy : JValue → Bool
  | .null => true
  | .bool b => !b
  | .num n => n == 0
  | .str s => s == ""

/-- Python `f"{v}"` rendering of a JSON scalar, used in URLs and messages. -/
def jstr : JValue → String
  | .null => "None"
  | .bool true => "True"
  | .bool false => "False"
  | .num n => toString n
  | .str s => s

/-- One entry of a document's `custom_fields` list: `{"field": id, "value": v}`. -/
structure CustomFieldEntry where
  field : Nat
  value : JValue
  deriving DecidableEq, Repr

/-- A Paperless document record as read back by `GET /api/documents/{id}/`:
the fields this program reads or writes. -/
structure DocData where
  id : Nat
  title : String
  content : String
  custom_fields : List CustomFieldEntry
  deriving DecidableEq, Repr

/-! ## update_document_content (src/update_ocr.py lines 175-223) -/

/-- The scan loop of `update_document_content`:
```
custom_fields = []
field_exists = False
for field in doc_data.get("custom_fields", []):
    if field["field"] == custom_field_id:
        field_exists = True
        custom_fields.append({"field": custom_field_id, "value": True})
    else:
        custom_fields.append(field)
```
Entries are emitted left to right in order; the first component is
`field_exists` (whether any entry matched). -/
def upsertScan (custom_field_id : Nat) : List CustomFieldEntry → Bool × List CustomFieldEntry
  | [] => (false, [])
  | f :: rest =>
    let r := upsertScan custom_field_id rest
    if f.field = custom_field_id then
      (true, ⟨custom_field_id, .bool true⟩ :: r.2)
    else
      (r.1, f :: r.2)

/-- The scan followed by
```
if not field_exists:
    custom_fields.append({"field": custom_field_id, "value": True})
``` -/
def upsertCustomFields (custom_field_id : Nat) (fields : List CustomFieldEntry) :
    List CustomFieldEntry :=
  let r := upsertScan custom_field_id fields
  if r.1 then r.2 else r.2 ++ [⟨custom_field_id, .bool true⟩]

/-- Environment seen by one call of `update_document_content`: the status and
body of the initial `GET /api/documents/{id}/`, and the status the server
answers to the PATCH. -/
structure UpdateEnv where
  getStatus : Nat
  getDoc : DocData
  patchStatus : Nat
  deriving Repr

/-- The body of the PATCH request `update_document_content` issues:
`{"content": content, "custom_fields": custom_fields}`. -/
structure PatchRequest where
  content : String
  custom_fields : List CustomFieldEntry
  deriving DecidableEq, Repr

/-- `update_document_content(document_id, content, custom_field_id, ...)`:
GET the current record (return False on non-200), upsert the flag into its
custom-field list, PATCH content plus custom fields, succeed iff the PATCH
status is 200 or 202.  Returns the Python boolean result together with the
PATCH request sent (none when the function returned before PATCHing). -/
def update_document_content (content : String) (custom_field_id : Nat)
    (env : UpdateEnv) : Bool × Option PatchRequest :=
  if env.getStatus ≠ 200 then
    (false, none)
  else
    let req : PatchRequest :=
      ⟨content, upsertCustomFields custom_field_id env.getDoc.custom_fields⟩
    if env.patchStatus = 200 ∨ env.patchStatus = 202 then
      (true, some req)
    else
      (false, some req)

/-- The record as stored after the server applies a successful PATCH:
content and custom-field list replaced by the request's. -/
def applyPatch (doc : DocData) (req : PatchRequest) : DocData :=
  { doc with content := req.content, custom_fields := req.custom_fields }

/-! ### Characterisation of the upsert -/

theorem upsertScan_eq (cfid : Nat) (l : List CustomFieldEntry) :
    upsertScan cfid l =
      (l.any (fun f => f.field = cfid),
       l.map (fun f => if f.field = cfid then ⟨cfid, .bool true⟩ else f)) := by
  induction l with
  | nil => rfl
  | cons f rest ih =>
    simp only [upsertScan, ih, List.any_cons, List.map_cons]
    by_cases h : f.field = cfid <;> simp [h]

theorem upsertCustomFields_eq (cfid : Nat) (l : List CustomFieldEntry) :
    upsertCustomFields cfid l =
      if l.any (fun f => f.field = cfid) then
        l.map (fun f => if f.field = cfid then ⟨cfid, .bool true⟩ else f)
      else
        l ++ [⟨cfid, .bool true⟩] := by
  simp only [upsertCustomFields, upsertScan_eq]
  by_cases h : l.any (fun f => f.field = cfid)
  · simp [h]
  · simp only [h, if_false]
    have hnone : ∀ f ∈ l, f.field ≠ cfid := by
      intro f hf hc
      exact h (List.any_eq_true.mpr ⟨f, hf, by simp [hc]⟩)
    have hmap :
        l.map (fun f => if f.field = cfid then (⟨cfid, .bool true⟩ : CustomFieldEntry) else f)
          = l := by
      have := List.map_congr_left
        (fun f hf => by simp [hnone f hf] :
          ∀ f ∈ l, (if f.field = cfid then (⟨cfid, .bool true⟩ : CustomFieldEntry) else f) = id f)
      simpa using this
    rw [hmap]

/-! ## process_with_azure_ocr (src/update_ocr.py lines 146-172) -/

/-- One recognized line of the Azure analysis result. -/
structure OcrLine where
  content : String
  deriving DecidableEq, Repr

/-- One page of the Azure analysis result. -/
structure OcrPage where
  lines : List OcrLine
  deriving DecidableEq, Repr

/-- The Azure `begin_analyze_document(...).result()` payload, as far as this
program walks it: pages, each holding lines. -/
structure OcrResult where
  pages : List OcrPage
  deriving DecidableEq, Repr

/-- The accumulation loop of `process_with_azure_ocr`:
```
content = ""
for page in result.pages:
    for line in page.lines:
        content += f"{line.content}\n"
``` -/
def extractContent (r : OcrResult) : String :=
  r.pages.foldl
    (fun content page =>
      page.lines.foldl (fun content line => content ++ (line.content ++ "\n")) content)
    ""

/-- `process_with_azure_ocr(file_path, client)`: everything from the file read
through `poller.result()` sits in one `try`; any raised error yields `None`.
The environment supplies either the analysis result or the raised error. -/
def process_with_azure_ocr (analysis : Except String OcrResult) : Option String :=
  match analysis with
  | .error _ => none
  | .ok result => some (extractContent result)

/-! ## Document query (src/update_ocr.py lines 38-123) -/

/-- Environment seen by one call into the Paperless query helpers: the status
and `id` field of `GET /api/custom_fields/2/`, and the status, `count` and
`results` of the `GET /api/documents/?...custom_field_query=...` call. -/
structure QueryEnv (Doc : Type) where
  fieldStatus : Nat
  fieldId : Nat
  listStatus : Nat
  count : Nat
  results : List Doc

/-- `get_custom_field(headers, secrets)`: `None` on non-200, else the field
descriptor (we retain its `id`). -/
def get_custom_field (fieldStatus fieldId : Nat) : Option Nat :=
  if fieldStatus ≠ 200 then none else some fieldId

/-- `get_count_of_documents_without_azure_ocr`: raises when the custom field
lookup came back `None`; returns 0 when the page-size-1 list query is
non-200; otherwise returns the reported `count`. -/
def get_count_of_documents_without_azure_ocr (Doc : Type) (env : QueryEnv Doc) :
    Except String Nat :=
  match get_custom_field env.fieldStatus env.fieldId with
  | none => .error "Custom field 'Azure OCR Completed' not found. Exiting script."
  | some _ =>
    if env.listStatus ≠ 200 then .ok 0
    else .ok env.count

/-- What `get_documents_without_azure_ocr` returns: on the non-200 path a bare
list (`return []`), on the 200 path a pair of the results page and the custom
field id (also when the page is empty: `return [], azure_ocr_field["id"]`). -/
inductive ListReturn (Doc : Type) where
  | bare (docs : List Doc)
  | paged (docs : List Doc) (fieldId : Nat)

/-- `get_documents_without_azure_ocr`: raises when the custom field lookup came
back `None`; returns the bare empty list when the list query is non-200;
otherwise returns the results page paired with the field id. -/
def get_documents_without_azure_ocr (Doc : Type) (env : QueryEnv Doc) :
    Except String (ListReturn Doc) :=
  match get_custom_field env.fieldStatus env.fieldId with
  | none => .error "Custom field 'Azure OCR Completed' not found. Exiting script."
  | some fid =>
    if env.listStatus ≠ 200 then .ok (.bare [])
    else .ok (.paged env.results fid)

/-! ## download_document and cleanup (src/update_ocr.py lines 126-143, 226-231) -/

/-- `download_document(document_id, ...)`: `None` on non-200, else the scratch
path `/tmp/paperless_doc_{document_id}.pdf` the bytes were written to
(`idStr` is the f-string rendering of the document id). -/
def download_document (idStr : String) (status : Nat) : Option String :=
  if status ≠ 200 then none
  else some ("/tmp/paperless_doc_" ++ idStr ++ ".pdf")

/-- Python truthiness of the `content` variable (`if not content:`):
`None` and the empty string are falsy. -/
def truthyContent : Option String → Bool
  | none => false
  | some s => s ≠ ""

/-- Python truthiness of the `file_path` variable (`if file_path and ...`):
`None` and the empty string are falsy. -/
def truthyPath : Option String → Bool
  | none => false
  | some p => p ≠ ""

/-- `cleanup(file_path)` acting on the set of existing scratch files:
`if file_path and os.path.exists(file_path): os.remove(file_path)`. -/
def cleanup (fs : Finset String) (file_path : Option String) : Finset String :=
  match file_path with
  | none => fs
  | some p => if p ≠ "" ∧ p ∈ fs then fs.erase p else fs

/-! ## process_documents (src/update_ocr.py lines 234-296) -/

/-- Environment for one document of a fetched page: the record fields the loop
reads plus the outcomes of the remote calls made on its behalf. -/
structure DocSpec where
  id : Nat
  title : String
  downloadStatus : Nat
  analysis : Except String OcrResult
  updateEnv : UpdateEnv

/-- An externally visible call made by the batch orchestrator, in order. -/
inductive Event where
  | fieldLookup (found : Bool)
  | countCall (n : Nat)
  | listCall (ok : Bool)
  | downloadCall (docId : Nat) (ok : Bool)
  | ocrCall (docId : Nat) (ok : Bool)
  | updateCall (docId : Nat) (ok : Bool)
  | cleanupCall (docId : Nat)
  deriving DecidableEq, Repr

/-- The per-document body of the `for doc in documents:` loop: download (on
falsy path: `continue`), OCR (on falsy content: `cleanup; continue`), update,
then `cleanup(file_path)` unconditionally.  The modelled callees return their
failures as values, so the per-document `except` clause has no raising call
left to catch here. -/
def process_one_document (custom_field_id : Nat) (d : DocSpec) : List Event :=
  match download_document (toString d.id) d.downloadStatus with
  | none => [.downloadCall d.id false]
  | some _file_path =>
    let content := process_with_azure_ocr d.analysis
    if ¬ truthyContent content then
      [.downloadCall d.id true, .ocrCall d.id false, .cleanupCall d.id]
    else
      let success := (update_document_content (content.getD "") custom_field_id d.updateEnv).1
      [.downloadCall d.id true, .ocrCall d.id true, .updateCall d.id success,
       .cleanupCall d.id]

/-- The whole `for doc in documents:` loop over one fetched page; there is no
`break`, so the events of every document are emitted in order. -/
def process_page (custom_field_id : Nat) (docs : List DocSpec) : List Event :=
  docs.foldl (fun evts d => evts ++ process_one_document custom_field_id d) []

/-- The environments the two remote queries of iteration `k` of the `while`
loop observe: one for the count call (the loop condition) and one for the
page-fetch call. -/
structure IterEnv where
  countEnv : QueryEnv DocSpec
  listEnv : QueryEnv DocSpec

/-- How one run of `process_documents` ended. -/
inductive RunOutcome where
  | finished
  | raised (msg : String)
  | fuelOut
  deriving DecidableEq, Repr

/-- The `while get_count_of_documents_without_azure_ocr(...) > 0:` loop of
`process_documents`, from iteration `k` on, with explicit fuel (the source
loop has no bound of its own).  The count call sits in the loop condition,
outside the body's `try`, so its raise propagates out of the function;
raises inside the body (missing custom field during the page fetch, or the
`ValueError` from unpacking the bare `[]` failure return) are caught by the
body's `except` and the loop re-enters its condition. -/
def process_documents (envs : Nat → IterEnv) : Nat → Nat → RunOutcome × List Event
  | 0, _ => (.fuelOut, [])
  | fuel + 1, k =>
    let e := envs k
    match get_count_of_documents_without_azure_ocr DocSpec e.countEnv with
    | .error msg => (.raised msg, [.fieldLookup false])
    | .ok n =>
      if n = 0 then
        (.finished, [.fieldLookup true, .countCall n])
      else
        match get_documents_without_azure_ocr DocSpec e.listEnv with
        | .error _ =>
          let rest := process_documents envs fuel (k + 1)
          (rest.1, [.fieldLookup true, .countCall n, .fieldLookup false] ++ rest.2)
        | .ok (.bare _) =>
          let rest := process_documents envs fuel (k + 1)
          (rest.1,
           [.fieldLookup true, .countCall n, .fieldLookup true, .listCall false] ++ rest.2)
        | .ok (.paged docs custom_field_id) =>
          if docs.isEmpty then
            (.finished, [.fieldLookup true, .countCall n, .fieldLookup true, .listCall true])
          else
            let rest := process_documents envs fuel (k + 1)
            (rest.1,
             [.fieldLookup true, .countCall n, .fieldLookup true, .listCall true]
               ++ process_page custom_field_id docs ++ rest.2)

/-! ## process_single_document (src/function_app.py lines 66-132) -/

/-- An externally visible call made by the single-document HTTP endpoint. -/
inductive SEvent where
  | secretsFetch
  | fieldLookup (found : Bool)
  | downloadCall (ok : Bool)
  | ocrCall (ok : Bool)
  | updateCall (ok : Bool)
  | cleanupCall
  deriving DecidableEq, Repr

/-- Environment seen by one invocation of the HTTP endpoint.  `jsonBody` is
the value `req.get_json().get("document_id")` produces (`.error` when
`get_json` raises; `JValue.null` covers both JSON `null` and an absent key,
which Python both renders as `None`).  `innerRaise` is an unexpected
exception raised inside the inner `try` block. -/
structure SingleEnv where
  jsonBody : Except String JValue
  secrets : Except String Unit
  fieldStatus : Nat
  fieldId : Nat
  downloadStatus : Nat
  innerRaise : Option String
  analysis : Except String OcrResult
  updateEnv : UpdateEnv

/-- An `azure.functions.HttpResponse`. -/
structure HttpResp where
  body : String
  status_code : Nat
  deriving DecidableEq, Repr

/-- `process_single_document(req)`: the HTTP endpoint, returning the response
together with the trace of external calls it made. -/
def process_single_document (env : SingleEnv) : HttpResp × List SEvent :=
  match env.jsonBody with
  | .error e => (⟨"Error: " ++ e, 500⟩, [])
  | .ok document_id =>
    if jfalsy document_id then
      (⟨"Please provide a document_id in the request body", 400⟩, [])
    else
      match env.secrets with
      | .error e => (⟨"Error: " ++ e, 500⟩, [.secretsFetch])
      | .ok _ =>
        match get_custom_field env.fieldStatus env.fieldId with
        | none =>
          (⟨"Custom field 'Azure OCR Completed' not found", 500⟩,
           [.secretsFetch, .fieldLookup false])
        | some fid =>
          match download_document (jstr document_id) env.downloadStatus with
          | none =>
            (⟨"Failed to download document " ++ jstr document_id, 500⟩,
             [.secretsFetch, .fieldLookup true, .downloadCall false])
          | some _file_path =>
            match env.innerRaise with
            | some e =>
              (⟨"Error processing document: " ++ e, 500⟩,
               [.secretsFetch, .fieldLookup true, .downloadCall true, .cleanupCall])
            | none =>
              let content := process_with_azure_ocr env.analysis
              if ¬ truthyContent content then
                (⟨"Failed to process document " ++ jstr document_id ++ " with Azure OCR", 500⟩,
                 [.secretsFetch, .fieldLookup true, .downloadCall true, .ocrCall false,
                  .cleanupCall])
              else
                let success := (update_document_content (content.getD "") fid env.updateEnv).1
                if success then
                  (⟨"Successfully processed document " ++ jstr document_id, 200⟩,
                   [.secretsFetch, .fieldLookup true, .downloadCall true, .ocrCall true,
                    .updateCall true, .cleanupCall])
                else
                  (⟨"Failed to update document " ++ jstr document_id ++ " in Paperless", 500⟩,
                   [.secretsFetch, .fieldLookup true, .downloadCall true, .ocrCall true,
                    .updateCall false, .cleanupCall])

/-! ## Claim C1 -/

/-- C1: for every document record and every OCR text, a successful update
(`update_document_content`) sets the record's content to the given text and
upserts the flag exactly once: if an entry with the flag field id already
exists in the custom-field list, its value is replaced in place with true and
the list length is unchanged; otherwise exactly one new entry
`{field: flagFieldId, value: true}` is appended and the length grows by one. -/
theorem C1_update_sets_content_and_upserts_once
    (text : String) (cfid : Nat) (env : UpdateEnv)
    (hget : env.getStatus = 200)
    (hpatch : env.patchStatus = 200 ∨ env.patchStatus = 202) :
    ∃ req : PatchRequest,
      update_document_content text cfid env = (true, some req) ∧
      (applyPatch env.getDoc req).content = text ∧
      ((∃ f ∈ env.getDoc.custom_fields, f.field = cfid) →
        req.custom_fields.length = env.getDoc.custom_fields.length ∧
        req.custom_fields =
          env.getDoc.custom_fields.map
            (fun f => if f.field = cfid then ⟨cfid, .bool true⟩ else f)) ∧
      ((∀ f ∈ env.getDoc.custom_fields, f.field ≠ cfid) →
        req.custom_fields = env.getDoc.custom_fields ++ [⟨cfid, .bool true⟩] ∧
        req.custom_fields.length = env.getDoc.custom_fields.length + 1) := by
  refine ⟨⟨text, upsertCustomFields cfid env.getDoc.custom_fields⟩, ?_, rfl, ?_, ?_⟩
  · unfold update_document_content
    rcases hpatch with h | h <;> simp [hget, h]
  · rintro ⟨f, hf, hfc⟩
    have hany : env.getDoc.custom_fields.any (fun f => f.field = cfid) = true :=
      List.any_eq_true.mpr ⟨f, hf, by simp [hfc]⟩
    rw [upsertCustomFields_eq, hany]
    simp
  · intro hnone
    have hany : env.getDoc.custom_fields.any (fun f => f.field = cfid) = false := by
      rw [List.any_eq_false]
      intro f hf
      simp [hnone f hf]
    rw [upsertCustomFields_eq, hany]
    simp

/-- Witness for C1, following the spec's single-document scenario: document 77
with no existing custom fields ends with exactly one entry
`{field: 2, value: true}` and its content equal to the OCR text. -/
theorem C1_update_sets_content_and_upserts_once_witness :
    ∃ req : PatchRequest,
      update_document_content "ocr text" 2 ⟨200, ⟨77, "t", "old", []⟩, 200⟩ =
        (true, some req) ∧
      (applyPatch (⟨77, "t", "old", []⟩ : DocData) req).content = "ocr text" ∧
      ((∃ f ∈ (⟨77, "t", "old", []⟩ : DocData).custom_fields, f.field = 2) →
        req.custom_fields.length = (⟨77, "t", "old", []⟩ : DocData).custom_fields.length ∧
        req.custom_fields =
          (⟨77, "t", "old", []⟩ : DocData).custom_fields.map
            (fun f => if f.field = 2 then ⟨2, .bool true⟩ else f)) ∧
      ((∀ f ∈ (⟨77, "t", "old", []⟩ : DocData).custom_fields, f.field ≠ 2) →
        req.custom_fields = (⟨77, "t", "old", []⟩ : DocData).custom_fields ++ [⟨2, .bool true⟩] ∧
        req.custom_fields.length =
          (⟨77, "t", "old", []⟩ : DocData).custom_fields.length + 1) :=
  C1_update_sets_content_and_upserts_once "ocr text" 2
    ⟨200, ⟨77, "t", "old", []⟩, 200⟩ rfl (Or.inl rfl)

/-! ## Claim C9 -/

/-- C9: `cleanup(path)` is idempotent — calling it twice leaves the same
filesystem state as calling it once — and calling it with no prior download
(a `None` path, or a path absent on disk) is safe and changes nothing. -/
theorem C9_cleanup_idempotent (fs : Finset String) (file_path : Option String) :
    cleanup (cleanup fs file_path) file_path = cleanup fs file_path ∧
    cleanup fs none = fs ∧
    (∀ p, p ∉ fs → cleanup fs (some p) = fs) := by
  refine ⟨?_, rfl, ?_⟩
  · match file_path with
    | none => rfl
    | some p =>
      by_cases h : p ≠ "" ∧ p ∈ fs
      · simp only [cleanup]
        rw [if_pos h]
        have hnot : ¬(p ≠ "" ∧ p ∈ fs.erase p) := by
          rintro ⟨-, hmem⟩
          exact absurd hmem (Finset.not_mem_erase p fs)
        rw [if_neg hnot]
      · simp only [cleanup]
        rw [if_neg h, if_neg h]
  · intro p hp
    have : ¬(p ≠ "" ∧ p ∈ fs) := by rintro ⟨-, hmem⟩; exact hp hmem
    simp only [cleanup]
    rw [if_neg this]

/-- Witness for C9 at a concrete filesystem. -/
theorem C9_cleanup_idempotent_witness :
    cleanup (cleanup {"/tmp/paperless_doc_42.pdf"} (some "/tmp/paperless_doc_42.pdf"))
        (some "/tmp/paperless_doc_42.pdf") =
      cleanup {"/tmp/paperless_doc_42.pdf"} (some "/tmp/paperless_doc_42.pdf") ∧
    cleanup {"/tmp/paperless_doc_42.pdf"} none = {"/tmp/paperless_doc_42.pdf"} ∧
    ("/tmp/paperless_doc_7.pdf" ∉ ({"/tmp/paperless_doc_42.pdf"} : Finset String) ∧
      cleanup {"/tmp/paperless_doc_42.pdf"} (some "/tmp/paperless_doc_7.pdf") =
        {"/tmp/paperless_doc_42.pdf"}) := by
  obtain ⟨h1, h2, h3⟩ :=
    C9_cleanup_idempotent {"/tmp/paperless_doc_42.pdf"} (some "/tmp/paperless_doc_42.pdf")
  exact ⟨h1, h2, by decide, h3 "/tmp/paperless_doc_7.pdf" (by decide)⟩

/-! ## Claim C5 -/

/-- C5: when the list request fails (non-200), `countPending` returns 0 rather
than raising and `listPending` returns an empty page; on success `listPending`
returns the page of documents plus the flag field id — silent degradation in
both failure cases, not an error. -/
theorem C5_failed_list_degrades_silently (Doc : Type) (env : QueryEnv Doc)
    (hfield : env.fieldStatus = 200) :
    (env.listStatus ≠ 200 →
      get_count_of_documents_without_azure_ocr Doc env = .ok 0 ∧
      get_documents_without_azure_ocr Doc env = .ok (.bare [])) ∧
    (env.listStatus = 200 →
      get_documents_without_azure_ocr Doc env = .ok (.paged env.results env.fieldId)) := by
  constructor
  · intro hlist
    constructor
    · simp [get_count_of_documents_without_azure_ocr, get_custom_field, hfield, hlist]
    · simp [get_documents_without_azure_ocr, get_custom_field, hfield, hlist]
  · intro hlist
    simp [get_documents_without_azure_ocr, get_custom_field, hfield, hlist]

/-- Witness for C5 at a concrete failing environment (status 502). -/
theorem C5_failed_list_degrades_silently_witness :
    get_count_of_documents_without_azure_ocr Nat ⟨200, 2, 502, 9, [5]⟩ = .ok 0 ∧
    get_documents_without_azure_ocr Nat ⟨200, 2, 502, 9, [5]⟩ = .ok (.bare []) := by
  exact (C5_failed_list_degrades_silently Nat ⟨200, 2, 502, 9, [5]⟩ rfl).1 (by decide)

/-! ## Claim C3 -/

/-- C3: whenever `get_count_of_documents_without_azure_ocr` returns 0, the
orchestrator loop terminates immediately: the remaining trace consists of
exactly the field lookup and the count query of that check — no page fetch,
download, OCR or update follows. -/
theorem C3_zero_count_terminates (envs : Nat → IterEnv) (fuel k : Nat)
    (h : get_count_of_documents_without_azure_ocr DocSpec (envs k).countEnv =
      .ok 0) :
    process_documents envs (fuel + 1) k =
      (.finished, [.fieldLookup true, .countCall 0]) ∧
    ∀ ev ∈ (process_documents envs (fuel + 1) k).2,
      ev = Event.fieldLookup true ∨ ev = Event.countCall 0 := by
  have hstep : process_documents envs (fuel + 1) k =
      (.finished, [.fieldLookup true, .countCall 0]) := by
    simp only [process_documents, h]
    rfl
  refine ⟨hstep, ?_⟩
  rw [hstep]
  intro ev hev
  simpa using hev

/-- Witness for C3: a concrete environment whose count query reports 0. -/
theorem C3_zero_count_terminates_witness :
    process_documents (fun _ => ⟨⟨200, 2, 200, 0, []⟩, ⟨200, 2, 200, 0, []⟩⟩) 5 0 =
      (.finished, [.fieldLookup true, .countCall 0]) :=
  (C3_zero_count_terminates (fun _ => ⟨⟨200, 2, 200, 0, []⟩, ⟨200, 2, 200, 0, []⟩⟩)
    4 0 rfl).1

/-! ## Claim C4 -/

/-- C4: the loop terminates whenever a fetched page is empty, even when the
count query still reported a nonzero remaining count: a successful empty page
makes `process_documents` return instead of looping. -/
theorem C4_empty_page_terminates (envs : Nat → IterEnv) (fuel k n fid : Nat)
    (hc : get_count_of_documents_without_azure_ocr DocSpec (envs k).countEnv =
      .ok n)
    (hn : n ≠ 0)
    (hl : get_documents_without_azure_ocr DocSpec (envs k).listEnv =
      .ok (.paged [] fid)) :
    process_documents envs (fuel + 1) k =
      (.finished,
       [.fieldLookup true, .countCall n, .fieldLookup true, .listCall true]) := by
  simp only [process_documents, hc, hl]
  simp [hn]

/-- Witness for C4: the count still reports 10 but the fetched page is empty;
the run exits cleanly. -/
theorem C4_empty_page_terminates_witness :
    process_documents (fun _ => ⟨⟨200, 2, 200, 10, []⟩, ⟨200, 2, 200, 10, []⟩⟩) 5 0 =
      (.finished,
       [.fieldLookup true, .countCall 10, .fieldLookup true, .listCall true]) :=
  C4_empty_page_terminates
    (fun _ => ⟨⟨200, 2, 200, 10, []⟩, ⟨200, 2, 200, 10, []⟩⟩) 4 0 10 2
    rfl (by decide) rfl

/-! ## Claim C6 -/

/-- C6: when the flag custom field does not exist remotely (the lookup comes
back not-found), the batch run aborts with the unrecovered "Custom field not
found" exception before any document is downloaded, OCR'd or updated: the
trace holds only the failed field lookup. -/
theorem C6_missing_field_aborts (envs : Nat → IterEnv) (fuel k : Nat)
    (h : (envs k).countEnv.fieldStatus ≠ 200) :
    process_documents envs (fuel + 1) k =
      (.raised "Custom field 'Azure OCR Completed' not found. Exiting script.",
       [.fieldLookup false]) ∧
    ∀ ev ∈ (process_documents envs (fuel + 1) k).2, ev = Event.fieldLookup false := by
  have hcount : get_count_of_documents_without_azure_ocr DocSpec (envs k).countEnv =
      .error "Custom field 'Azure OCR Completed' not found. Exiting script." := by
    simp [get_count_of_documents_without_azure_ocr, get_custom_field, h]
  have hstep : process_documents envs (fuel + 1) k =
      (.raised "Custom field 'Azure OCR Completed' not found. Exiting script.",
       [.fieldLookup false]) := by
    simp only [process_documents, hcount]
  refine ⟨hstep, ?_⟩
  rw [hstep]
  intro ev hev
  simpa using hev

/-- Witness for C6: custom field id 2 missing remotely (lookup status 404). -/
theorem C6_missing_field_aborts_witness :
    process_documents (fun _ => ⟨⟨404, 2, 200, 3, []⟩, ⟨404, 2, 200, 3, []⟩⟩) 5 0 =
      (.raised "Custom field 'Azure OCR Completed' not found. Exiting script.",
       [.fieldLookup false]) :=
  (C6_missing_field_aborts (fun _ => ⟨⟨404, 2, 200, 3, []⟩, ⟨404, 2, 200, 3, []⟩⟩)
    4 0 (by decide)).1

/-! ## Claim C2 -/

theorem process_page_eq_flatten (custom_field_id : Nat) (docs : List DocSpec) :
    process_page custom_field_id docs =
      (docs.map (process_one_document custom_field_id)).flatten := by
  suffices h : ∀ init : List Event,
      docs.foldl (fun evts d => evts ++ process_one_document custom_field_id d) init =
        init ++ (docs.map (process_one_document custom_field_id)).flatten by
    simpa [process_page] using h []
  induction docs with
  | nil => intro init; simp
  | cons d rest ih =>
    intro init
    simp only [List.foldl_cons, List.map_cons, List.flatten_cons, ih, List.append_assoc]

/-- C2: within one fetched page, a failed download, OCR call or update for a
document never prevents cleanup of that document's scratch file and never
halts the processing of subsequent documents: the page trace decomposes into
the full traces of every document in order, whatever each one's outcome; a
document whose download succeeded always gets its cleanup call, and one whose
download failed created no scratch file at all. -/
theorem C2_failures_isolated (custom_field_id : Nat)
    (docsBefore docsAfter : List DocSpec) (d : DocSpec) :
    process_page custom_field_id (docsBefore ++ d :: docsAfter) =
      process_page custom_field_id docsBefore ++
        process_one_document custom_field_id d ++
        process_page custom_field_id docsAfter ∧
    (download_document (toString d.id) d.downloadStatus ≠ none →
      Event.cleanupCall d.id ∈ process_one_document custom_field_id d) ∧
    (download_document (toString d.id) d.downloadStatus = none →
      process_one_document custom_field_id d = [.downloadCall d.id false]) := by
  refine ⟨?_, ?_, ?_⟩
  · simp [process_page_eq_flatten, List.append_assoc]
  · intro hdl
    unfold process_one_document
    match hd : download_document (toString d.id) d.downloadStatus with
    | none => exact absurd hd hdl
    | some p =>
      by_cases hc : truthyContent (process_with_azure_ocr d.analysis) <;> simp [hc]
  · intro hdl
    unfold process_one_document
    rw [hdl]

/-- Witness for C2: a page of three documents where the first fails its
download, the second fails OCR, and the third fails its update; each
document's trace appears in full and each created scratch file is cleaned. -/
theorem C2_failures_isolated_witness :
    process_page 2
      ([⟨11, "a", 404, .ok ⟨[]⟩, ⟨200, ⟨11, "a", "", []⟩, 200⟩⟩] ++
        ⟨12, "b", 200, .error "ocr down", ⟨200, ⟨12, "b", "", []⟩, 200⟩⟩ ::
        [⟨13, "c", 200, .ok ⟨[⟨[⟨"hi"⟩]⟩]⟩, ⟨200, ⟨13, "c", "", []⟩, 500⟩⟩]) =
      process_page 2 [⟨11, "a", 404, .ok ⟨[]⟩, ⟨200, ⟨11, "a", "", []⟩, 200⟩⟩] ++
        process_one_document 2
          ⟨12, "b", 200, .error "ocr down", ⟨200, ⟨12, "b", "", []⟩, 200⟩⟩ ++
        process_page 2 [⟨13, "c", 200, .ok ⟨[⟨[⟨"hi"⟩]⟩]⟩, ⟨200, ⟨13, "c", "", []⟩, 500⟩⟩] ∧
    Event.cleanupCall 12 ∈
      process_one_document 2
        ⟨12, "b", 200, .error "ocr down", ⟨200, ⟨12, "b", "", []⟩, 200⟩⟩ := by
  obtain ⟨h1, h2, -⟩ :=
    C2_failures_isolated 2
      [⟨11, "a", 404, .ok ⟨[]⟩, ⟨200, ⟨11, "a", "", []⟩, 200⟩⟩]
      [⟨13, "c", 200, .ok ⟨[⟨[⟨"hi"⟩]⟩]⟩, ⟨200, ⟨13, "c", "", []⟩, 500⟩⟩]
      ⟨12, "b", 200, .error "ocr down", ⟨200, ⟨12, "b", "", []⟩, 200⟩⟩
  exact ⟨h1, h2 (by simp [download_document])⟩

/-! ## Claim C7 -/

theorem string_join_cons (s : String) (l : List String) :
    String.join (s :: l) = s ++ String.join l := by
  apply String.ext
  simp

theorem foldl_append_eq_join {α : Type} (g : α → String) (l : List α) :
    ∀ init : String,
      l.foldl (fun acc x => acc ++ g x) init = init ++ String.join (l.map g) := by
  induction l with
  | nil =>
    intro init
    simp [String.join]
  | cons x rest ih =>
    intro init
    simp only [List.foldl_cons, List.map_cons, ih, string_join_cons, String.append_assoc]

theorem extractContent_eq_join (r : OcrResult) :
    extractContent r =
      String.join (r.pages.map (fun page =>
        String.join (page.lines.map (fun line => line.content ++ "\n")))) := by
  unfold extractContent
  have hfun :
      (fun (content : String) (page : OcrPage) =>
        page.lines.foldl (fun content line => content ++ (line.content ++ "\n")) content) =
      (fun (content : String) (page : OcrPage) =>
        content ++ String.join (page.lines.map (fun line => line.content ++ "\n"))) := by
    funext content page
    exact foldl_append_eq_join (fun line => line.content ++ "\n") page.lines content
  rw [hfun, foldl_append_eq_join (fun page =>
    String.join (page.lines.map (fun line => line.content ++ "\n"))) r.pages ""]
  exact String.empty_append _

/-- C7: `process_with_azure_ocr` returns exactly the concatenation, over the
result's pages in order and each page's lines in order, of each line's text
followed by one newline; and it returns `None` when the OCR call raised —
full text or nothing, no partial output. -/
theorem C7_ocr_full_text_or_nothing :
    (∀ r : OcrResult,
      process_with_azure_ocr (.ok r) =
        some (String.join (r.pages.map (fun page =>
          String.join (page.lines.map (fun line => line.content ++ "\n")))))) ∧
    (∀ e : String, process_with_azure_ocr (.error e) = none) := by
  constructor
  · intro r
    simp only [process_with_azure_ocr, extractContent_eq_join]
  · intro e
    rfl

/-! ## Claim C10 -/

/-- C10: every request whose JSON body carries a falsy `document_id` (missing
key or null — both Python `None` —, the number 0, or the empty string) gets
status 400 with an empty call trace: no secret fetch and no downstream call.
A literal document id of 0 is indistinguishable from an absent one. -/
theorem C10_falsy_document_id_short_circuits (env : SingleEnv) (v : JValue)
    (hbody : env.jsonBody = .ok v) (hf : jfalsy v = true) :
    process_single_document env =
      (⟨"Please provide a document_id in the request body", 400⟩, []) ∧
    (jfalsy .null = true ∧ jfalsy (.num 0) = true ∧ jfalsy (.str "") = true) ∧
    (∀ envA : SingleEnv,
      process_single_document { envA with jsonBody := .ok (.num 0) } =
        process_single_document { envA with jsonBody := .ok .null }) := by
  refine ⟨?_, by decide, ?_⟩
  · simp [process_single_document, hbody, hf]
  · intro envA
    simp [process_single_document, jfalsy]

/-- Witness for C10: a body with `document_id` 0 is answered 400 with no
external call made. -/
theorem C10_falsy_document_id_short_circuits_witness :
    process_single_document
        ⟨.ok (.num 0), .ok (), 200, 2, 200, none, .ok ⟨[]⟩,
         ⟨200, ⟨0, "", "", []⟩, 200⟩⟩ =
      (⟨"Please provide a document_id in the request body", 400⟩, []) :=
  (C10_falsy_document_id_short_circuits
    ⟨.ok (.num 0), .ok (), 200, 2, 200, none, .ok ⟨[]⟩, ⟨200, ⟨0, "", "", []⟩, 200⟩⟩
    (.num 0) rfl (by decide)).1

/-! ## Claim C8 -/

theorem ne_of_data_take_ne (n : Nat) (a b : String)
    (h : a.data.take n ≠ b.data.take n) : a ≠ b :=
  fun e => h (by rw [e])

/-- C8: the single-document endpoint maps each failure point to a distinct
response: missing document id gives 400; custom field not found, download
failure, unexpected exception, OCR failure and update failure each give 500
with pairwise distinct human-readable messages; a fully successful run gives
200. -/
theorem C8_endpoint_distinct_responses (env : SingleEnv) (docId : JValue)
    (hbody : env.jsonBody = .ok docId) :
    (jfalsy docId = true →
      (process_single_document env).1 =
        ⟨"Please provide a document_id in the request body", 400⟩) ∧
    (jfalsy docId = false → env.secrets = .ok () →
      ((env.fieldStatus ≠ 200 →
        (process_single_document env).1 =
          ⟨"Custom field 'Azure OCR Completed' not found", 500⟩) ∧
      (env.fieldStatus = 200 → env.downloadStatus ≠ 200 →
        (process_single_document env).1 =
          ⟨"Failed to download document " ++ jstr docId, 500⟩) ∧
      (env.fieldStatus = 200 → env.downloadStatus = 200 →
        ((∀ e, env.innerRaise = some e →
          (process_single_document env).1 =
            ⟨"Error processing document: " ++ e, 500⟩) ∧
        (env.innerRaise = none →
          ((truthyContent (process_with_azure_ocr env.analysis) = false →
            (process_single_document env).1 =
              ⟨"Failed to process document " ++ jstr docId ++ " with Azure OCR", 500⟩) ∧
          (truthyContent (process_with_azure_ocr env.analysis) = true →
            ((update_document_content ((process_with_azure_ocr env.analysis).getD "")
                env.fieldId env.updateEnv).1 = false →
              (process_single_document env).1 =
                ⟨"Failed to update document " ++ jstr docId ++ " in Paperless", 500⟩) ∧
            ((update_document_content ((process_with_azure_ocr env.analysis).getD "")
                env.fieldId env.updateEnv).1 = true →
              (process_single_document env).1 =
                ⟨"Successfully processed document " ++ jstr docId, 200⟩)))))))) ∧
    (∀ e : String,
      List.Pairwise (fun a b => a ≠ b)
        ["Custom field 'Azure OCR Completed' not found",
         "Failed to download document " ++ jstr docId,
         "Failed to process document " ++ jstr docId ++ " with Azure OCR",
         "Error processing document: " ++ e,
         "Failed to update document " ++ jstr docId ++ " in Paperless"]) := by
  refine ⟨?_, ?_, ?_⟩
  · intro hf
    simp [process_single_document, hbody, hf]
  · intro hf hsec
    refine ⟨?_, ?_, ?_⟩
    · intro hfield
      simp [process_single_document, hbody, hf, hsec, get_custom_field, hfield]
    · intro hfield hdl
      simp [process_single_document, hbody, hf, hsec, get_custom_field, hfield,
        download_document, hdl]
    · intro hfield hdl
      refine ⟨?_, ?_⟩
      · intro e hraise
        simp [process_single_document, hbody, hf, hsec, get_custom_field, hfield,
          download_document, hdl, hraise]
      · intro hraise
        refine ⟨?_, ?_⟩
        · intro hocr
          simp [process_single_document, hbody, hf, hsec, get_custom_field, hfield,
            download_document, hdl, hraise, hocr]
        · intro hocr
          constructor
          · intro hupd
            simp [process_single_document, hbody, hf, hsec, get_custom_field, hfield,
              download_document, hdl, hraise, hocr, hupd]
          · intro hupd
            simp [process_single_document, hbody, hf, hsec, get_custom_field, hfield,
              download_document, hdl, hraise, hocr, hupd]
  · intro e
    have hle2 : 11 ≤ ("Failed to download document " : String).data.length := by decide
    have hle3 : 11 ≤ ("Failed to process document " : String).data.length := by decide
    have hle4 : 11 ≤ ("Error processing document: " : String).data.length := by decide
    have hle5 : 11 ≤ ("Failed to update document " : String).data.length := by decide
    have t1 : ("Custom field 'Azure OCR Completed' not found" : String).data.take 11 =
        ("Custom fiel" : String).data := by decide
    have t2 : ("Failed to download document " ++ jstr docId).data.take 11 =
        ("Failed to d" : String).data := by
      rw [String.data_append, List.take_append_of_le_length hle2]
      decide
    have t3 : ("Failed to process document " ++ jstr docId ++ " with Azure OCR").data.take 11 =
        ("Failed to p" : String).data := by
      simp only [String.data_append, List.append_assoc]
      rw [List.take_append_of_le_length hle3]
      decide
    have t4 : ("Error processing document: " ++ e).data.take 11 =
        ("Error proce" : String).data := by
      rw [String.data_append, List.take_append_of_le_length hle4]
      decide
    have t5 : ("Failed to update document " ++ jstr docId ++ " in Paperless").data.take 11 =
        ("Failed to u" : String).data := by
      simp only [String.data_append, List.append_assoc]
      rw [List.take_append_of_le_length hle5]
      decide
    have hp : List.Pairwise (fun a b => a ≠ b)
        (["Custom field 'Azure OCR Completed' not found",
          "Failed to download document " ++ jstr docId,
          "Failed to process document " ++ jstr docId ++ " with Azure OCR",
          "Error processing document: " ++ e,
          "Failed to update document " ++ jstr docId ++ " in Paperless"].map
            (fun m => m.data.take 11)) := by
      simp only [List.map_cons, List.map_nil, t1, t2, t3, t4, t5]
      decide
    exact (List.pairwise_map.mp hp).imp (fun h he => h (by rw [he]))

/-- Witness for C8: one concrete environment per failure point of the
endpoint, plus a fully successful one. -/
theorem C8_endpoint_distinct_responses_witness :
    (process_single_document
        ⟨.ok .null, .ok (), 200, 2, 200, none, .ok ⟨[]⟩,
         ⟨200, ⟨77, "t", "", []⟩, 200⟩⟩).1 =
      ⟨"Please provide a document_id in the request body", 400⟩ ∧
    (process_single_document
        ⟨.ok (.num 77), .ok (), 404, 2, 200, none, .ok ⟨[]⟩,
         ⟨200, ⟨77, "t", "", []⟩, 200⟩⟩).1 =
      ⟨"Custom field 'Azure OCR Completed' not found", 500⟩ ∧
    (process_single_document
        ⟨.ok (.num 77), .ok (), 200, 2, 500, none, .ok ⟨[]⟩,
         ⟨200, ⟨77, "t", "", []⟩, 200⟩⟩).1 =
      ⟨"Failed to download document " ++ jstr (.num 77), 500⟩ ∧
    (process_single_document
        ⟨.ok (.num 77), .ok (), 200, 2, 200, some "boom", .ok ⟨[]⟩,
         ⟨200, ⟨77, "t", "", []⟩, 200⟩⟩).1 =
      ⟨"Error processing document: " ++ "boom", 500⟩ ∧
    (process_single_document
        ⟨.ok (.num 77), .ok (), 200, 2, 200, none, .error "down",
         ⟨200, ⟨77, "t", "", []⟩, 200⟩⟩).1 =
      ⟨"Failed to process document " ++ jstr (.num 77) ++ " with Azure OCR", 500⟩ ∧
    (process_single_document
        ⟨.ok (.num 77), .ok (), 200, 2, 200, none, .ok ⟨[⟨[⟨"hi"⟩]⟩]⟩,
         ⟨200, ⟨77, "t", "", []⟩, 500⟩⟩).1 =
      ⟨"Failed to update document " ++ jstr (.num 77) ++ " in Paperless", 500⟩ ∧
    (process_single_document
        ⟨.ok (.num 77), .ok (), 200, 2, 200, none, .ok ⟨[⟨[⟨"hi"⟩]⟩]⟩,
         ⟨200, ⟨77, "t", "", []⟩, 200⟩⟩).1 =
      ⟨"Successfully processed document " ++ jstr (.num 77), 200⟩ := by
  refine ⟨?_, ?_, ?_, ?_, ?_, ?_, ?_⟩
  · exact (C8_endpoint_distinct_responses
      ⟨.ok .null, .ok (), 200, 2, 200, none, .ok ⟨[]⟩, ⟨200, ⟨77, "t", "", []⟩, 200⟩⟩
      .null rfl).1 (by decide)
  · exact ((C8_endpoint_distinct_responses
      ⟨.ok (.num 77), .ok (), 404, 2, 200, none, .ok ⟨[]⟩, ⟨200, ⟨77, "t", "", []⟩, 200⟩⟩
      (.num 77) rfl).2.1 (by decide) rfl).1 (by decide)
  · exact ((C8_endpoint_distinct_responses
      ⟨.ok (.num 77), .ok (), 200, 2, 500, none, .ok ⟨[]⟩, ⟨200, ⟨77, "t", "", []⟩, 200⟩⟩
      (.num 77) rfl).2.1 (by decide) rfl).2.1 rfl (by decide)
  · exact (((C8_endpoint_distinct_responses
      ⟨.ok (.num 77), .ok (), 200, 2, 200, some "boom", .ok ⟨[]⟩,
       ⟨200, ⟨77, "t", "", []⟩, 200⟩⟩
      (.num 77) rfl).2.1 (by decide) rfl).2.2 rfl rfl).1 "boom" rfl
  · exact ((((C8_endpoint_distinct_responses
      ⟨.ok (.num 77), .ok (), 200, 2, 200, none, .error "down",
       ⟨200, ⟨77, "t", "", []⟩, 200⟩⟩
      (.num 77) rfl).2.1 (by decide) rfl).2.2 rfl rfl).2 rfl).1 rfl
  · exact (((((C8_endpoint_distinct_responses
      ⟨.ok (.num 77), .ok (), 200, 2, 200, none, .ok ⟨[⟨[⟨"hi"⟩]⟩]⟩,
       ⟨200, ⟨77, "t", "", []⟩, 500⟩⟩
      (.num 77) rfl).2.1 (by decide) rfl).2.2 rfl rfl).2 rfl).2 (by decide)).1 (by decide)
  · exact (((((C8_endpoint_distinct_responses
      ⟨.ok (.num 77), .ok (), 200, 2, 200, none, .ok ⟨[⟨[⟨"hi"⟩]⟩]⟩,
       ⟨200, ⟨77, "t", "", []⟩, 200⟩⟩
      (.num 77) rfl).2.1 (by decide) rfl).2.2 rfl rfl).2 rfl).2 (by decide)).2 (by decide)

end PaperlessOcr
